import Mathlib

/-!
Verification of the control-loop logic of `pisensor.py` (raspberry-sensor).

The Python source is shallowly embedded: module-level mutable state
(the parsed config, the smoother's function-attached window, the message
counter) is passed explicitly; machine floats are modelled by exact
rationals; Python exceptions are modelled by `Except` / explicit outcome
types.  Each definition mirrors one function of the source file.
-/

namespace PiSensor

/-- The `[Telemetry]` section of `pisensor.conf` as held in memory by the
module-level `configparser` object.  `configparser` stores the decimal
string `str(v)` and every reader applies `int(...)`; since that round
trip is lossless for Python ints, the two keys are modelled directly as
integers.  (`configparser` lowercases option names, so the source's
mixed-case accesses `sendInterval` / `sendinterval` all denote the same
key.) -/
structure TelemetryConfig where
  sendinterval : Int
  tempalert : Int
deriving DecidableEq, Repr

/-- Python exceptions that the embedded fragments can raise. -/
inductive PyError where
  /-- `json_payload['key']` on a missing key. -/
  | keyError
  /-- `open(..., 'w')` / file write failure (`OSError`). -/
  | ioError
  /-- referencing a local variable before assignment. -/
  | unboundLocalError
  /-- e.g. `"%f" % None`. -/
  | typeError
deriving DecidableEq, Repr

/-- The window state that `get_smooth` keeps in its function attribute
`get_smooth.t = [t0, t1, t2]` (index 0 is the newest sample). -/
structure SmoothState where
  t0 : ℚ
  t1 : ℚ
  t2 : ℚ
deriving DecidableEq, Repr

/-- `get_smooth(x)` from pisensor.py lines 302-309.  On the first call the
window is seeded `[x, x, x]`; every call shifts `t[2] = t[1]; t[1] = t[0];
t[0] = x` and returns the mean of the three entries.  The lazily created
function attribute is passed explicitly as `Option SmoothState`. -/
def get_smooth (st : Option SmoothState) (x : ℚ) : ℚ × SmoothState :=
  let t := st.getD ⟨x, x, x⟩
  let t2 := t.t1
  let t1 := t.t0
  let t0 := x
  ((t0 + t1 + t2) / 3, ⟨t0, t1, t2⟩)

/-- Feed a list of samples through `get_smooth`, returning the list of
outputs and the final window state. -/
def runSmooth (st : Option SmoothState) : List ℚ → List ℚ × Option SmoothState
  | [] => ([], st)
  | x :: xs =>
    let (y, st') := get_smooth st x
    let (ys, stF) := runSmooth (some st') xs
    (y :: ys, stF)

/-- Round-half-to-even to an integer, the tie-breaking rule of Python 3's
built-in `round`. -/
def roundHalfEven (x : ℚ) : ℤ :=
  let f := ⌊x⌋
  let r := x - (f : ℚ)
  if r < 1/2 then f
  else if 1/2 < r then f + 1
  else if Even f then f else f + 1

/-- Python's `round(x, 1)`: round to one decimal place (half-to-even). -/
def pyRound1 (x : ℚ) : ℚ := ((roundHalfEven (10 * x) : ℤ) : ℚ) / 10

/-- Raw sensor values gathered in one iteration of the send loop
(`t_cpu = get_cpu_temp()`, `p`, `h`, `t1`, `t2` from the Sense HAT). -/
structure SensorReadings where
  t_cpu : ℚ
  p : ℚ
  h : ℚ
  t1 : ℚ
  t2 : ℚ
deriving DecidableEq, Repr

/-- Lines 375-376: `t = (t1+t2)/2; t_corr = t - ((t_cpu-t)/1.5)` — the
CPU-heating-corrected temperature before smoothing. -/
def cycleCorrected (r : SensorReadings) : ℚ :=
  let t := (r.t1 + r.t2) / 2
  t - ((r.t_cpu - t) / 1.5)

/-- The character for a decimal digit, as produced by `%d` formatting. -/
def decimalDigitChar (d : ℕ) : Char := Char.ofNat (48 + d)

/-- The decimal digits of `n`, least-significant first (`0` renders as the
single digit `0`, as `%d` does). -/
def decimalDigits (n : ℕ) : List ℕ := if n = 0 then [0] else Nat.digits 10 n

/-- Decimal rendering of a nonnegative integer, modelling Python's `"%d" % n`
(most-significant digit first). -/
def natDecimal (n : ℕ) : String :=
  String.mk ((decimalDigits n).map decimalDigitChar).reverse

/-- One outbound telemetry message: the six `MESSAGE_TXT` fields (the values
handed to the `%.2f` format slots, before 2-decimal text formatting), the
ids assigned at lines 400-401, and the `temperatureAlert` property added at
line 406. -/
structure TelemetryMessage where
  deviceId : String
  temp_from_humidity : ℚ
  temp_from_pressure : ℚ
  temp_cpu : ℚ
  temp_corr : ℚ
  pressure : ℚ
  humidity : ℚ
  message_id : String
  correlation_id : String
  temperatureAlert : String
deriving DecidableEq, Repr

/-- The mutable module-level state read and written by one iteration of the
send loop in `iothub_client_run`: the `MESSAGE_COUNT` counter, the
smoother's window, and the parsed config. -/
structure LoopState where
  messageCount : ℕ
  smooth : Option SmoothState
  config : TelemetryConfig
deriving DecidableEq, Repr

/-- One successful iteration of the `while True:` body of
`iothub_client_run` (lines 350-414), given the raw sensor values of that
cycle: compute and smooth the corrected temperature (lines 375-377), round
the published fields to one decimal (lines 381-385, where line 382 rounds
the already-rounded `t1` into `t2`), build the message with ids derived
from `MESSAGE_COUNT` (lines 398-406), and finally increment the counter
(line 414). -/
def runCycle (st : LoopState) (r : SensorReadings) : TelemetryMessage × LoopState :=
  let temp_alert := st.config.tempalert
  let t_corr_raw := cycleCorrected r
  let smoothed := get_smooth st.smooth t_corr_raw
  let t1 := pyRound1 r.t1
  let t2 := pyRound1 t1
  let t_corr := pyRound1 smoothed.1
  let p := pyRound1 r.p
  let h := pyRound1 r.h
  let msg : TelemetryMessage :=
    { deviceId := "jhnr-device"
      temp_from_humidity := t1
      temp_from_pressure := t2
      temp_cpu := r.t_cpu
      temp_corr := t_corr
      pressure := p
      humidity := h
      message_id := "message_" ++ natDecimal st.messageCount
      correlation_id := "correlation_" ++ natDecimal st.messageCount
      temperatureAlert := if (temp_alert : ℚ) < t_corr then "true" else "false" }
  (msg, { st with smooth := some smoothed.2, messageCount := st.messageCount + 1 })

/-- `set_sendinterval(interval)` (lines 261-273), success path, restricted
to its effect on the in-memory config: store `str(interval)` under the
`sendinterval` key.  (The file write and the LED/display feedback rendered
by `blink_leds` / `display_message` are external effects.) -/
def set_sendinterval (cfg : TelemetryConfig) (interval : Int) : TelemetryConfig :=
  { cfg with sendinterval := interval }

/-- Everything observable about one call of `set_tempalert(temperature)`
(lines 276-288): the two values printed in the "Changing alert temperature
from %d to %d" log line, whether the call returned normally or raised, and
the in-memory config afterwards (also when the call raised). -/
structure SetTempAlertRun where
  logFrom : Int
  logTo : Int
  result : Except PyError Unit
  memConfig : TelemetryConfig
deriving Repr

/-- `set_tempalert(temperature)` (lines 276-288).  Line 277 reads the old
value from the `sendinterval` key (not `tempalert`) for the log line; line
281 mutates the in-memory config; lines 283-284 then write the file, whose
success is injected as `writeOk` (an `OSError` on failure propagates to the
caller uncaught). -/
def set_tempalert (cfg : TelemetryConfig) (temperature : Int) (writeOk : Bool) :
    SetTempAlertRun :=
  let actual_alert_temperature := cfg.sendinterval
  let cfg' := { cfg with tempalert := temperature }
  { logFrom := actual_alert_temperature
    logTo := temperature
    result := if writeOk then .ok () else .error .ioError
    memConfig := cfg' }

/-- The desired-state JSON payload of a twin notification, after the
`int(...)` conversions of lines 138-139; `none` models an absent key
(`json_payload['...']` then raises `KeyError`). -/
structure TwinPayload where
  sendInterval : Option Int
  tempAlert : Option Int
deriving DecidableEq, Repr

/-- The observable outcome of one `device_twin_callback` invocation: the
in-memory config afterwards, how many config-store writes (setter calls,
each persisting the file) ran, and how many times `report_state()` was
invoked. -/
structure TwinRun where
  config : TelemetryConfig
  configWrites : ℕ
  stateReports : ℕ
deriving DecidableEq, Repr

/-- `device_twin_callback(update_state, payload, ...)` (lines 125-149),
with both setter calls on their success path.  For a `PARTIAL` update it
unconditionally reads `json_payload['sendInterval']` and
`json_payload['tempAlert']` (a missing key raises `KeyError` before
anything is applied), calls a setter for each value that differs from the
current config, and then always calls `report_state()` once.  Any other
update state only logs. -/
def device_twin_callback (update_state : String) (payload : TwinPayload)
    (cfg : TelemetryConfig) : Except PyError TwinRun :=
  if update_state = "PARTIAL" then
    match payload.sendInterval with
    | none => .error .keyError
    | some desired_send_interval =>
      match payload.tempAlert with
      | none => .error .keyError
      | some desired_temp_alert =>
        let actual_send_interval := cfg.sendinterval
        let actual_temp_alert := cfg.tempalert
        let s1 : TelemetryConfig × ℕ :=
          if desired_send_interval ≠ actual_send_interval
          then (set_sendinterval cfg desired_send_interval, 1) else (cfg, 0)
        let s2 : TelemetryConfig × ℕ :=
          if desired_temp_alert ≠ actual_temp_alert
          then ((set_tempalert s1.1 desired_temp_alert true).memConfig, 1)
          else (s1.1, 0)
        .ok { config := s2.1, configWrites := s1.2 + s2.2, stateReports := 1 }
  else .ok { config := cfg, configWrites := 0, stateReports := 0 }

/-- The synchronous return value a direct-method callback hands back to the
transport (`DeviceMethodReturnValue` in the source). -/
structure DeviceMethodReturnValue where
  response : String
  status : Int
deriving DecidableEq, Repr

/-- The side action a direct method dispatches to. -/
inductive MethodAction where
  | displayMessage (payload : String)
  | updateDevice
deriving DecidableEq, Repr

/-- `device_method_callback(method_name, payload, ...)` (lines 160-181):
the response body `{ "methodName":"<name>" }` and status 200 are set
before dispatch; the name `display_message` shows the payload,
`update_device` triggers the OS update, and any other name only downgrades
the status to 404.  The function always returns a value (no exception
escapes the dispatch itself). -/
def device_method_callback (method_name : String) (payload : String) :
    DeviceMethodReturnValue × List MethodAction :=
  let ret : DeviceMethodReturnValue :=
    { response := "\x7b \"methodName\":\"" ++ method_name ++ "\" \x7d"
      status := 200 }
  if method_name = "display_message" then (ret, [.displayMessage payload])
  else if method_name = "update_device" then (ret, [.updateDevice])
  else ({ ret with status := 404 }, [])

/-- What a call to `get_cpu_temp` can do: return a temperature, return
Python's `None`, or raise. -/
inductive CpuTempOutcome where
  | value (t : ℚ)
  | noneReturned
  | raised (e : PyError)
deriving DecidableEq, Repr

/-- `get_cpu_temp()` (lines 291-299).  `openOk` tells whether
`open('/sys/class/thermal/thermal_zone0/temp')` succeeds; `content` is the
parsed float when read-and-parse succeed.  On a successful read the
function returns `t/1000`.  If the read or parse fails after a successful
open, the `except:` clause closes the file, evaluates the bare name `exit`
without calling it, and falls off the end, returning `None`.  If the open
itself fails, the `except:` clause's `tFile.close()` references the local
`tFile` before assignment and raises `UnboundLocalError`. -/
def get_cpu_temp (openOk : Bool) (content : Option ℚ) : CpuTempOutcome :=
  if openOk then
    match content with
    | some t => .value (t / 1000)
    | none => .noneReturned
  else .raised .unboundLocalError

/-- The fate of `t_cpu = get_cpu_temp()` followed by
`print("   CPU temperature %f" % t_cpu)` at lines 358-359 of the send
loop: a raised exception propagates, and a `None` return makes the `%f`
format raise `TypeError`. -/
def cpuTempInLoop (openOk : Bool) (content : Option ℚ) : Except PyError ℚ :=
  match get_cpu_temp openOk content with
  | .value t => .ok t
  | .noneReturned => .error .typeError
  | .raised e => .error e

/-- The exceptions that can escape one iteration of the send loop. -/
inductive LoopException where
  | iotHubError
  | keyboardInterrupt
  | python (e : PyError)
deriving DecidableEq, Repr

/-- Which exceptions the `try ... except IoTHubError ... except
KeyboardInterrupt` wrapper of `iothub_client_run` (lines 344, 416-420)
handles; every other exception crashes the process. -/
def loopCatches : LoopException → Bool
  | .iotHubError => true
  | .keyboardInterrupt => true
  | .python _ => false

/-! ## Helper lemmas -/

/-- Rounding an integer (as a rational) is the identity. -/
lemma roundHalfEven_intCast (n : ℤ) : roundHalfEven (n : ℚ) = n := by
  unfold roundHalfEven
  simp only [Int.floor_intCast, sub_self]
  norm_num

/-- `pyRound1` is idempotent: its image consists of exact tenths. -/
lemma pyRound1_idem (x : ℚ) : pyRound1 (pyRound1 x) = pyRound1 x := by
  unfold pyRound1
  have h : (10 : ℚ) * (((roundHalfEven (10 * x) : ℤ) : ℚ) / 10)
      = ((roundHalfEven (10 * x) : ℤ) : ℚ) := by ring
  rw [h, roundHalfEven_intCast]

/-- Distinct decimal digits render to distinct characters. -/
lemma decimalDigitChar_inj {a b : ℕ} (ha : a < 10) (hb : b < 10)
    (h : decimalDigitChar a = decimalDigitChar b) : a = b := by
  revert h
  interval_cases a <;> interval_cases b <;> decide

/-- Every entry of `decimalDigits n` is a digit. -/
lemma decimalDigits_lt (n : ℕ) : ∀ x ∈ decimalDigits n, x < 10 := by
  intro x hx
  unfold decimalDigits at hx
  by_cases hn : n = 0
  · rw [if_pos hn] at hx
    simp at hx
    omega
  · rw [if_neg hn] at hx
    exact Nat.digits_lt_base (by norm_num) hx

/-- `decimalDigits` is injective. -/
lemma decimalDigits_inj {a b : ℕ} (h : decimalDigits a = decimalDigits b) : a = b := by
  unfold decimalDigits at h
  by_cases ha : a = 0 <;> by_cases hb : b = 0
  · rw [ha, hb]
  · rw [if_pos ha, if_neg hb] at h
    have := Nat.ofDigits_digits 10 b
    rw [← h] at this
    simp [Nat.ofDigits_cons, Nat.ofDigits_nil] at this
    omega
  · rw [if_neg ha, if_pos hb] at h
    have := Nat.ofDigits_digits 10 a
    rw [h] at this
    simp [Nat.ofDigits_cons, Nat.ofDigits_nil] at this
    omega
  · rw [if_neg ha, if_neg hb] at h
    exact Nat.digits_inj_iff.mp h

/-- Mapping `decimalDigitChar` over digit lists is injective. -/
lemma map_decimalDigitChar_inj : ∀ {l1 l2 : List ℕ},
    (∀ x ∈ l1, x < 10) → (∀ x ∈ l2, x < 10) →
    l1.map decimalDigitChar = l2.map decimalDigitChar → l1 = l2
  | [], [], _, _, _ => rfl
  | [], _ :: _, _, _, h => by simp at h
  | _ :: _, [], _, _, h => by simp at h
  | a :: l1, b :: l2, h1, h2, h => by
    simp only [List.map_cons, List.cons.injEq] at h
    have ha : a < 10 := h1 a (List.mem_cons_self a l1)
    have hb : b < 10 := h2 b (List.mem_cons_self b l2)
    have hab : a = b := decimalDigitChar_inj ha hb h.1
    have hrest : l1 = l2 := map_decimalDigitChar_inj
      (fun x hx => h1 x (List.mem_cons_of_mem a hx))
      (fun x hx => h2 x (List.mem_cons_of_mem b hx)) h.2
    rw [hab, hrest]

/-- Decimal rendering is injective: distinct counters give distinct text. -/
lemma natDecimal_inj {a b : ℕ} (h : natDecimal a = natDecimal b) : a = b := by
  unfold natDecimal at h
  have hdata := congrArg String.data h
  simp only [String.data] at hdata
  rw [List.reverse_inj] at hdata
  exact decimalDigits_inj
    (map_decimalDigitChar_inj (decimalDigits_lt a) (decimalDigits_lt b) hdata)

/-- Appending to a fixed prefix is injective on strings. -/
lemma string_append_left_cancel {p s t : String} (h : p ++ s = p ++ t) : s = t := by
  cases p with
  | mk pd =>
    cases s with
    | mk sd =>
      cases t with
      | mk td =>
        have hd : pd ++ sd = pd ++ td := congrArg String.data h
        exact congrArg String.mk (List.append_cancel_left hd)

/-! ## Claim theorems -/

/-- C1: in every sampling cycle the corrected temperature before smoothing
is `avgTemp - ((cpuTemp - avgTemp) / 1.5)` with `avgTemp = (humidityTemp +
pressureTemp) / 2`, it is the value fed to the smoother by the cycle, and
for `humidityTemp = 20`, `pressureTemp = 22`, `cpuTemp = 40` it equals
`21 - ((40 - 21) / 1.5) = 25/3 ≈ 8.333`. -/
theorem corrected_temperature_formula :
    (∀ r : SensorReadings,
      cycleCorrected r = (r.t1 + r.t2) / 2 - ((r.t_cpu - (r.t1 + r.t2) / 2) / 1.5))
    ∧ (∀ (st : LoopState) (r : SensorReadings),
        (runCycle st r).2.smooth = some (get_smooth st.smooth (cycleCorrected r)).2)
    ∧ cycleCorrected ⟨40, 0, 0, 20, 22⟩ = 21 - (40 - 21) / 1.5
    ∧ cycleCorrected ⟨40, 0, 0, 20, 22⟩ = 25 / 3 := by
  refine ⟨fun r => rfl, fun st r => rfl, by norm_num [cycleCorrected], ?_⟩
  norm_num [cycleCorrected]

/-- C4: the very first `get_smooth` call returns its input exactly (the
window is seeded with the first value); every later call shifts the window
(drop oldest of 3, insert newest) and returns the mean of the 3 most
recent inputs; in particular after any three consecutive equal inputs
`v, v, v` the output is exactly `v`. -/
theorem get_smooth_window_spec :
    (∀ x : ℚ, (get_smooth none x).1 = x)
    ∧ (∀ (st : SmoothState) (x : ℚ),
        (get_smooth (some st) x).2 = ⟨x, st.t0, st.t1⟩
        ∧ (get_smooth (some st) x).1 = (x + st.t0 + st.t1) / 3)
    ∧ (∀ (st : Option SmoothState) (a b c : ℚ),
        (runSmooth st [a, b, c]).1.getLast? = some ((a + b + c) / 3))
    ∧ (∀ (st : Option SmoothState) (v : ℚ),
        (runSmooth st [v, v, v]).1.getLast? = some v) := by
  refine ⟨?_, ?_, ?_, ?_⟩
  · intro x
    simp [get_smooth]
    ring
  · intro st x
    exact ⟨rfl, rfl⟩
  · intro st a b c
    cases st <;> (simp [runSmooth, get_smooth]; ring_nf)
  · intro st v
    cases st <;> (simp [runSmooth, get_smooth]; ring_nf)

/-- C5: the published `temp_from_pressure` field is the already-rounded
humidity temperature rounded a second time, so it always equals the
published `temp_from_humidity` field and is independent of the raw
pressure-temperature reading. -/
theorem temp_from_pressure_mirrors_humidity :
    ∀ (st : LoopState) (r : SensorReadings),
      (runCycle st r).1.temp_from_pressure = pyRound1 (pyRound1 r.t1)
      ∧ (runCycle st r).1.temp_from_pressure = (runCycle st r).1.temp_from_humidity
      ∧ ∀ t2raw : ℚ,
          (runCycle st { r with t2 := t2raw }).1.temp_from_pressure
            = (runCycle st r).1.temp_from_pressure := by
  intro st r
  refine ⟨rfl, ?_, fun t2raw => rfl⟩
  show pyRound1 (pyRound1 r.t1) = pyRound1 r.t1
  exact pyRound1_idem r.t1

/-- C10: `temp_cpu` is serialized from the raw CPU temperature while every
other numeric field gets the one-decimal rounding first; on the raw value
`40.06` the rounding would have changed it, so the omission is
observable. -/
theorem temp_cpu_not_rounded :
    (∀ (st : LoopState) (r : SensorReadings),
      (runCycle st r).1.temp_cpu = r.t_cpu
      ∧ (runCycle st r).1.temp_from_humidity = pyRound1 r.t1
      ∧ (runCycle st r).1.temp_corr
          = pyRound1 (get_smooth st.smooth (cycleCorrected r)).1
      ∧ (runCycle st r).1.pressure = pyRound1 r.p
      ∧ (runCycle st r).1.humidity = pyRound1 r.h)
    ∧ (runCycle ⟨0, none, ⟨60, 25⟩⟩ ⟨2003/50, 0, 0, 0, 0⟩).1.temp_cpu
        ≠ pyRound1 (2003/50) := by
  refine ⟨fun st r => ⟨rfl, rfl, rfl, rfl, rfl⟩, ?_⟩
  have h1 : (10 : ℚ) * (2003/50) = 2003/5 := by norm_num
  have h2 : ⌊(2003/5 : ℚ)⌋ = 400 := by
    rw [Int.floor_eq_iff]
    constructor <;> norm_num
  have hpy : pyRound1 (2003/50) = 401/10 := by
    unfold pyRound1 roundHalfEven
    rw [h1, h2]
    norm_num
  show (2003/50 : ℚ) ≠ pyRound1 (2003/50)
  rw [hpy]
  norm_num

/-- C2 counterexample: an unchanged desired-state payload (`sendInterval`
60, `tempAlert` 25 against a config already holding 60/25) triggers zero
config writes but still one `report_state()` call — not zero reports as
claimed — and a payload carrying only `sendInterval` makes the callback
raise `KeyError` instead of applying the one present field. -/
theorem twin_unchanged_payload_still_reports :
    device_twin_callback ("PARTIAL") ⟨some 60, some 25⟩ ⟨60, 25⟩
      = .ok { config := ⟨60, 25⟩, configWrites := 0, stateReports := 1 }
    ∧ device_twin_callback ("PARTIAL") ⟨some 60, some 25⟩ ⟨60, 25⟩
        ≠ .ok { config := ⟨60, 25⟩, configWrites := 0, stateReports := 0 }
    ∧ device_twin_callback ("PARTIAL") ⟨some 30, none⟩ ⟨60, 25⟩ = .error .keyError := by
  refine ⟨rfl, ?_, rfl⟩
  intro h
  have h' : (Except.ok (⟨⟨60, 25⟩, 0, 1⟩ : TwinRun) : Except PyError TwinRun)
      = Except.ok (⟨⟨60, 25⟩, 0, 0⟩ : TwinRun) := h
  simp at h'

/-- C2 amended: a `PARTIAL` desired-state notification requires both
`sendInterval` and `tempAlert` in the payload (a missing key raises
`KeyError` and nothing is applied or reported); for each present field
that differs from the current config the corresponding setter is called
(one persisted write each), and the state report is then sent exactly once
per notification regardless of whether any field changed; a non-`PARTIAL`
update state applies and reports nothing. -/
theorem twin_callback_behavior :
    (∀ (dsi dta : Int) (cfg : TelemetryConfig),
      device_twin_callback ("PARTIAL") ⟨some dsi, some dta⟩ cfg
        = .ok { config := ⟨dsi, dta⟩,
                configWrites :=
                  (if dsi ≠ cfg.sendinterval then 1 else 0)
                  + (if dta ≠ cfg.tempalert then 1 else 0),
                stateReports := 1 })
    ∧ (∀ (dsi : Int) (cfg : TelemetryConfig),
        device_twin_callback ("PARTIAL") ⟨some dsi, none⟩ cfg = .error .keyError)
    ∧ (∀ (dta : Int) (cfg : TelemetryConfig),
        device_twin_callback ("PARTIAL") ⟨none, some dta⟩ cfg = .error .keyError)
    ∧ (∀ (s : String) (p : TwinPayload) (cfg : TelemetryConfig), s ≠ "PARTIAL" →
        device_twin_callback s p cfg
          = .ok { config := cfg, configWrites := 0, stateReports := 0 }) := by
  refine ⟨?_, fun _ _ => rfl, fun _ _ => rfl, ?_⟩
  · intro dsi dta cfg
    unfold device_twin_callback set_sendinterval set_tempalert
    by_cases h1 : dsi = cfg.sendinterval <;> by_cases h2 : dta = cfg.tempalert <;>
      simp [h1, h2]
  · intro s p cfg hs
    unfold device_twin_callback
    rw [if_neg hs]

/-- Witness for the hypothesis of `twin_callback_behavior`: a `COMPLETE`
update state leaves the config untouched and sends no report. -/
theorem twin_callback_behavior_witness :
    device_twin_callback ("COMPLETE") ⟨some 30, some 25⟩ ⟨60, 25⟩
      = .ok { config := ⟨60, 25⟩, configWrites := 0, stateReports := 0 } :=
  twin_callback_behavior.2.2.2 ("COMPLETE") ⟨some 30, some 25⟩ ⟨60, 25⟩ (by decide)

/-- C3 counterexample: with current config 60/25, a `set_tempalert 30`
call whose file write fails does raise the error to the caller, but the
in-memory `tempalert` is already 30 — not its prior value 25 — because
line 281 mutates the config before lines 283-284 write the file. -/
theorem set_tempalert_failure_mutates_memory :
    (set_tempalert ⟨60, 25⟩ 30 false).result = .error .ioError
    ∧ (set_tempalert ⟨60, 25⟩ 30 false).memConfig.tempalert = 30
    ∧ (set_tempalert ⟨60, 25⟩ 30 false).memConfig.tempalert ≠ 25 := by
  refine ⟨rfl, rfl, by decide⟩

/-- C3 amended: a persistence failure in `set_tempalert` is surfaced to
the caller as an uncaught error (not silently swallowed), but the
in-memory `tempalert` has already been updated to the new value before the
write (mutate-then-persist, not write-then-commit); `sendinterval` is
untouched. -/
theorem set_tempalert_failure_behavior :
    ∀ (cfg : TelemetryConfig) (v : Int),
      (set_tempalert cfg v false).result = .error .ioError
      ∧ (set_tempalert cfg v false).memConfig.tempalert = v
      ∧ (set_tempalert cfg v false).memConfig.sendinterval = cfg.sendinterval :=
  fun _ _ => ⟨rfl, rfl, rfl⟩

/-- C9: every `set_tempalert v` call logs its "from" value from the
`sendinterval` key (the copy-paste at line 277), yet the stored
`tempalert` afterwards equals `v` and the `sendinterval` entry is left
unchanged; concretely, with config 60/25 the log claims a change "from
60". -/
theorem set_tempalert_log_and_frame :
    (∀ (cfg : TelemetryConfig) (v : Int) (writeOk : Bool),
      (set_tempalert cfg v writeOk).logFrom = cfg.sendinterval
      ∧ (set_tempalert cfg v writeOk).memConfig.tempalert = v
      ∧ (set_tempalert cfg v writeOk).memConfig.sendinterval = cfg.sendinterval)
    ∧ (set_tempalert ⟨60, 25⟩ 30 true).logFrom = 60 :=
  ⟨fun _ _ _ => ⟨rfl, rfl, rfl⟩, rfl⟩

/-- C6: direct-method dispatch is by name: `display_message` answers
status 200 with a body echoing the method name and shows the payload;
`update_device` answers 200; any unrecognized name answers 404 with the
body still echoing the name, returning normally (no crash). -/
theorem device_method_dispatch :
    ((device_method_callback ("display_message") ("hello")).1.status = 200
      ∧ (device_method_callback ("display_message") ("hello")).1.response
          = "\x7b \"methodName\":\"display_message\" \x7d"
      ∧ (device_method_callback ("display_message") ("hello")).2
          = [.displayMessage ("hello")])
    ∧ (∀ payload : String,
        (device_method_callback ("update_device") payload).1.status = 200)
    ∧ (∀ (name payload : String), name ≠ "display_message" → name ≠ "update_device" →
        (device_method_callback name payload).1.status = 404
        ∧ (device_method_callback name payload).1.response
            = "\x7b \"methodName\":\"" ++ name ++ "\" \x7d"
        ∧ (device_method_callback name payload).2 = []) := by
  refine ⟨⟨by decide, by decide, by decide⟩, fun _ => rfl, ?_⟩
  intro name payload h1 h2
  unfold device_method_callback
  rw [if_neg h1, if_neg h2]
  exact ⟨rfl, rfl, rfl⟩

/-- Witness for the hypotheses of `device_method_dispatch`: the unknown
name `unknown_cmd` is answered with status 404. -/
theorem device_method_dispatch_witness :
    (device_method_callback ("unknown_cmd") ("x")).1.status = 404 :=
  (device_method_dispatch.2.2 ("unknown_cmd") ("x") (by decide) (by decide)).1

/-- C7: the message counter increases by exactly one per cycle, and the
`message_id` / `correlation_id` strings derived from it are never reused:
consecutive cycles carry distinct ids, and more generally any two cycles
starting from distinct counter values do. -/
theorem message_ids_monotone :
    ∀ (st : LoopState) (r1 r2 : SensorReadings),
      ((runCycle st r1).2).messageCount = st.messageCount + 1
      ∧ (runCycle st r1).1.message_id = "message_" ++ natDecimal st.messageCount
      ∧ (runCycle (runCycle st r1).2 r2).1.message_id
          ≠ (runCycle st r1).1.message_id
      ∧ (runCycle (runCycle st r1).2 r2).1.correlation_id
          ≠ (runCycle st r1).1.correlation_id
      ∧ (∀ (st2 : LoopState) (r3 : SensorReadings),
          st2.messageCount ≠ st.messageCount →
          (runCycle st2 r3).1.message_id ≠ (runCycle st r1).1.message_id) := by
  intro st r1 r2
  refine ⟨rfl, rfl, ?_, ?_, ?_⟩
  · intro h
    have h' : "message_" ++ natDecimal (st.messageCount + 1)
        = "message_" ++ natDecimal st.messageCount := h
    have := natDecimal_inj (string_append_left_cancel h')
    omega
  · intro h
    have h' : "correlation_" ++ natDecimal (st.messageCount + 1)
        = "correlation_" ++ natDecimal st.messageCount := h
    have := natDecimal_inj (string_append_left_cancel h')
    omega
  · intro st2 r3 hne h
    have h' : "message_" ++ natDecimal st2.messageCount
        = "message_" ++ natDecimal st.messageCount := h
    exact hne (natDecimal_inj (string_append_left_cancel h'))

/-- Witness for the hypothesis of `message_ids_monotone`: cycles starting
at counters 1 and 0 produce distinct message ids. -/
theorem message_ids_monotone_witness :
    (runCycle ⟨1, none, ⟨60, 25⟩⟩ ⟨0, 0, 0, 0, 0⟩).1.message_id
      ≠ (runCycle ⟨0, none, ⟨60, 25⟩⟩ ⟨0, 0, 0, 0, 0⟩).1.message_id :=
  (message_ids_monotone ⟨0, none, ⟨60, 25⟩⟩ ⟨0, 0, 0, 0, 0⟩ ⟨0, 0, 0, 0, 0⟩).2.2.2.2
    ⟨1, none, ⟨60, 25⟩⟩ ⟨0, 0, 0, 0, 0⟩ (by decide)

/-- C8, the code evaluated at the failing input: when the open of the CPU
thermal file fails, `get_cpu_temp`'s own `except` handler raises
`UnboundLocalError` (its `tFile.close()` references a variable that was
never assigned), which the send loop's `except IoTHubError` /
`except KeyboardInterrupt` clauses do not catch — so the loop crashes
instead of reporting the value as absent/zero.  When the read or parse
fails after a successful open, `get_cpu_temp` returns `None` and the
loop's `"%f" % t_cpu` raises `TypeError`, likewise uncaught. -/
theorem cpu_temp_failure_crashes_loop :
    (∀ content : Option ℚ,
      get_cpu_temp false content = .raised .unboundLocalError
      ∧ cpuTempInLoop false content = .error .unboundLocalError)
    ∧ get_cpu_temp true none = .noneReturned
    ∧ cpuTempInLoop true none = .error .typeError
    ∧ loopCatches (.python .unboundLocalError) = false
    ∧ loopCatches (.python .typeError) = false :=
  ⟨fun _ => ⟨rfl, rfl⟩, rfl, rfl, rfl, rfl⟩

end PiSensor
